import Mathlib

/-!
Shallow embedding of the core logic of `src/app.py` (a Flask + Firestore
library CRUD service).  Python JSON values are modelled by `Value`
(strings, integers, floats-as-rationals, string lists); Python dicts and
Firestore documents by functions `String → Option Value`; the Firestore
client by per-collection maps `String → Option Doc` plus a fresh-id
counter.  `datetime.now()` timestamps are threaded as explicit `String`
arguments.  Machine-level aspects (UTF-8 details of `str.strip`, Python
`int()` underscore separators, non-string dict values where the source
would raise) are modelled at the granularity the claims need.
-/

/-- A JSON-ish value as it appears in request payloads and stored
documents: Python `str`, `int`, `float` (modelled as `ℚ`, the only
floats produced here are rating averages), or a list of strings (tags). -/
inductive Value where
  | str (s : String)
  | int (n : Int)
  | rat (q : ℚ)
  | list (l : List String)
deriving DecidableEq

/-- Python truthiness of a JSON value: `""`, `0`, `0.0` and `[]` are
falsy, everything else truthy. -/
def Value.truthy : Value → Bool
  | .str s => s ≠ ""
  | .int n => n ≠ 0
  | .rat q => q ≠ 0
  | .list l => l ≠ []

/-- The character-list core of Python `str.strip()`: drop whitespace from
both ends. -/
def stripChars (cs : List Char) : List Char :=
  ((cs.dropWhile Char.isWhitespace).reverse.dropWhile Char.isWhitespace).reverse

/-- Model of Python `str.strip()` (whitespace trim at both ends). -/
def pyStrip (s : String) : String :=
  String.mk (stripChars s.data)

/-- Accumulate a decimal digit string into a number; `none` if a
non-digit appears or the string is empty. -/
def parseDigits : List Char → Option Nat
  | [] => none
  | cs => go cs 0
where
  go : List Char → Nat → Option Nat
    | [], acc => some acc
    | c :: rest, acc =>
      if c.isDigit then go rest (acc * 10 + (c.toNat - '0'.toNat)) else none

/-- Model of Python `int(s)` on a string: strip whitespace, optional
sign, then decimal digits; `none` models `ValueError`. -/
def pyIntOfString (s : String) : Option Int :=
  match (pyStrip s).data with
  | '+' :: rest => (parseDigits rest).map (fun n => (n : Int))
  | '-' :: rest => (parseDigits rest).map (fun n => -(n : Int))
  | cs => (parseDigits cs).map (fun n => (n : Int))

/-- Python `int()` truncates floats toward zero. -/
def truncRat (q : ℚ) : Int := q.num.tdiv q.den

/-- Model of Python `int(value)` on a JSON value (or `None` when the
value is absent): `none` models `TypeError`/`ValueError`. -/
def pyIntValue : Option Value → Option Int
  | some (.int n) => some n
  | some (.str s) => pyIntOfString s
  | some (.rat q) => some (truncRat q)
  | some (.list _) => none
  | none => none

/-- Embedding of `to_int(value, default)` from `src/app.py`: coerce to an integer,
falling back to `default` on `TypeError`/`ValueError`. -/
def to_int (value : Option Value) (default : Option Int) : Option Int :=
  match pyIntValue value with
  | some n => some n
  | none => default

/-- Embedding of `parse_limit(value, default=10, max_limit=100)` from `src/app.py`,
with the default caller arguments inlined. -/
def parse_limit (value : Option Value) : Int :=
  match to_int value (some 10) with
  | none => 10
  | some n => if n < 1 then 1 else if n > 100 then 100 else n

/-- Embedding of `parse_offset(value, default=0)` from `src/app.py`. -/
def parse_offset (value : Option Value) : Int :=
  match to_int value (some 0) with
  | none => 0
  | some n => max 0 n

/-- Python list slice `items[start:end]` for `0 ≤ start`, `0 ≤ end`. -/
def pySlice (items : List α) (a b : Int) : List α :=
  (items.drop a.toNat).take (b - a).toNat

/-- Result shape of `paginate` in `src/app.py`. -/
structure Page (α : Type) where
  items : List α
  total : Int
  limit : Int
  offset : Int
  has_more : Bool
deriving DecidableEq

/-- Embedding of `paginate(items, limit, offset)` from `src/app.py`.  `limit or 1`
is the Python truthiness fallback (0 → 1). -/
def paginate (items : List α) (limit offset : Int) : Page α :=
  let total : Int := items.length
  let size : Int := max 1 (if limit = 0 then 1 else limit)
  let start : Int := max 0 offset
  let end_ : Int := min (start + size) total
  { items := pySlice items start end_
    total := total
    limit := size
    offset := offset
    has_more := decide (end_ < total) }

/-- Embedding of `TAG_OPTIONS` from `src/app.py`: the fixed controlled vocabulary. -/
def TAG_OPTIONS : List String :=
  ["Science Fiction", "Fantasy", "Mystery", "Historical", "Romance",
   "Non-fiction", "Biography", "Young Adult", "Horror", "Adventure",
   "Classic", "Thriller", "Humor", "Political", "Novella"]

/-- The loop of `sanitize_tags`: trim each tag, keep it when nonempty,
in the vocabulary and not already collected (`cleaned` accumulates in
order). -/
def sanitizeTagsAux (allowed : List String) : List String → List String → List String
  | [], cleaned => cleaned
  | tag :: rest, cleaned =>
    let t := pyStrip tag
    if t ≠ "" ∧ t ∈ allowed ∧ t ∉ cleaned then
      sanitizeTagsAux allowed rest (cleaned ++ [t])
    else
      sanitizeTagsAux allowed rest cleaned

/-- Embedding of `sanitize_tags` from `src/app.py` on a list of tags. -/
def sanitize_tags (value : List String) : List String :=
  sanitizeTagsAux TAG_OPTIONS value []

/-- Embedding of `sanitize_tags` on an arbitrary JSON value, as the book endpoints
call it: falsy values give `[]`, a single string is wrapped in a
one-element list (non-iterable numbers, which would raise in Python,
are out of the modelled domain and give `[]`). -/
def sanitizeTagsValue : Option Value → List String
  | none => []
  | some (.str s) => if s = "" then [] else sanitize_tags [s]
  | some (.list l) => sanitize_tags l
  | some (.int _) => []
  | some (.rat _) => []

/-- A Python dict / Firestore document: a finite-ish map from field
names to JSON values. -/
def Doc : Type := String → Option Value

/-- Dict assignment `d[k] = v`. -/
def dset (d : Doc) (k : String) (v : Value) : Doc :=
  fun k2 => if k2 = k then some v else d k2

/-- Dict update `d.setdefault(k, v)`: set only when the key is absent. -/
def dsetdefault (d : Doc) (k : String) (v : Value) : Doc :=
  fun k2 => if k2 = k then
    match d k with
    | some w => some w
    | none => some v
  else d k2

/-- The empty dict. -/
def emptyDoc : Doc := fun _ => none

/-- A Firestore collection: document id → document. -/
def Col : Type := String → Option Doc

/-- The empty collection. -/
def emptyCol : Col := fun _ => none

/-- Store a document under an id. -/
def colSet (col : Col) (id : String) (d : Doc) : Col :=
  fun i => if i = id then some d else col i

/-- Model of the auto-generated document ids of the external store
(`db.collection(col).document()` in `src/app.py`): an id fresh for the
counter value, always nonempty. -/
def freshId (n : Nat) : String := "doc" ++ Nat.repr n

/-- Embedding of `doc_to_dict(doc)` from `src/app.py`: the document fields plus an
`id` field holding the document id. -/
def doc_to_dict (d : Doc) (id : String) : Doc :=
  dset d "id" (.str id)

/-- Embedding of `get_one(col, id)` from `src/app.py`. -/
def get_one (col : Col) (id : String) : Option Doc :=
  match col id with
  | some d => some (doc_to_dict d id)
  | none => none

/-- Embedding of `exists(col, id)` from `src/app.py` (renamed: `exists` is a Lean
keyword). -/
def existsDoc (col : Col) (id : String) : Bool :=
  (col id).isSome

/-- Embedding of `create(col, data)` from `src/app.py`: auto-id, `setdefault` of
`createdAt`, unconditional `updatedAt`, store, and return the re-read
document (with its id).  The id generation of the store is modelled by the
`nextId` counter; result is (returned document, new collection, new
counter). -/
def create (col : Col) (nextId : Nat) (data : Doc) (ts : String) :
    Doc × Col × Nat :=
  let id := freshId nextId
  let payload := dset (dsetdefault data "createdAt" (.str ts)) "updatedAt" (.str ts)
  (doc_to_dict payload id, colSet col id payload, nextId + 1)

/-- Firestore `ref.update(payload)`: fields named in the payload
overwrite, all others are kept. -/
def mergeDoc (old payload : Doc) : Doc :=
  fun k => match payload k with
  | some v => some v
  | none => old k

/-- Embedding of `update_one(col, id, data)` from `src/app.py`: absent id gives
`none` and leaves the collection untouched; otherwise merge the patch
plus a fresh `updatedAt` and return the re-read document. -/
def update_one (col : Col) (id : String) (data : Doc) (ts : String) :
    Option Doc × Col :=
  match col id with
  | none => (none, col)
  | some old =>
    let payload := dset data "updatedAt" (.str ts)
    let merged := mergeDoc old payload
    (some (doc_to_dict merged id), colSet col id merged)

/-- Embedding of `require_fields(data, required)` from `src/app.py`: collect the
required fields that are absent or falsy; `some msg` models the
`(False, msg)` rejection. -/
def require_fields (data : Doc) (required : List String) : Option String :=
  let missing := required.filter fun f =>
    match data f with
    | some v => !v.truthy
    | none => true
  if missing = [] then none
  else some ("Missing required field(s): " ++ String.intercalate ", " missing)

/-- An HTTP-level outcome: a JSON body with a status, or an error
message with a status (`json_error` in `src/app.py`). -/
inductive Resp where
  | ok (status : Nat) (body : Doc)
  | err (status : Nat) (msg : String)

/-- The HTTP status of a response. -/
def Resp.status : Resp → Nat
  | .ok s _ => s
  | .err s _ => s

/-- The error message of a response (`""` on success). -/
def Resp.errMsg : Resp → String
  | .ok _ _ => ""
  | .err _ m => m

/-- The JSON body of a successful response (empty on error). -/
def Resp.body : Resp → Doc
  | .ok _ b => b
  | .err _ _ => emptyDoc

/-- The Firestore state of the application as the book endpoints see it:
the three entity collections, the append-only rating log, and the
id counter of the store. -/
structure DB where
  authors : Col
  publishers : Col
  books : Col
  ratings : List Doc
  nextId : Nat

/-- Document-id extraction from a JSON value: the endpoints pass the
(string) foreign-key value straight to `document(id)`. -/
def Value.asId : Option Value → String
  | some (.str s) => s
  | _ => ""

/-- Embedding of `(data.get(k) or "")` in `src/app.py`: the string value when truthy,
otherwise `""`. -/
def strOrEmpty : Option Value → String
  | some (.str s) => s
  | _ => ""

/-- Embedding of `int(book_data.get(k) or 0)` in `books_rate`: 0 for absent or falsy
values, otherwise the integer coercion (an unparseable string, which
would raise in Python, is out of the modelled domain and gives 0). -/
def intOrZero (v : Option Value) : Int :=
  match v with
  | some (.int n) => n
  | some (.rat q) => truncRat q
  | some (.str s) => (pyIntOfString s).getD 0
  | some (.list _) => 0
  | none => 0

/-- Embedding of `record_rating(book_id, rating, notes, name)` from `src/app.py`:
the appended rating-log entry. -/
def record_rating (book_id : String) (rating : Int) (notes name : String)
    (ts : String) : Doc :=
  fun k =>
    if k = "book_id" then some (.str book_id)
    else if k = "rating" then some (.int rating)
    else if k = "notes" then some (.str (pyStrip notes))
    else if k = "name" then some (.str (pyStrip name))
    else if k = "createdAt" then some (.str ts)
    else none

/-- The fields written back to the book by the single
`book_ref.update({...})` call. -/
def rateBookPatch (rating_sum rating_count : Int) (rating_avg : Value)
    (ts : String) : Doc :=
  fun k =>
    if k = "rating_sum" then some (.int rating_sum)
    else if k = "rating_count" then some (.int rating_count)
    else if k = "rating_avg" then some rating_avg
    else if k = "updatedAt" then some (.str ts)
    else none

/-- Embedding of `books_rate` (`POST /api/books/<id>/rate`) from `src/app.py`:
existence check, rating validation, read-modify-write of the aggregate
fields, rating-log append.  `rating_sum / rating_count if rating_count
else 0` is Python true division (a float) with an int-0 fallback. -/
def books_rate (db : DB) (id : String) (data : Doc) (ts : String) :
    Resp × DB :=
  match db.books id with
  | none => (.err 404 "Book not found", db)
  | some book_data =>
    match to_int (data "rating") none with
    | none => (.err 400 "rating must be an integer between 1 and 5", db)
    | some rating =>
      if rating < 1 ∨ rating > 5 then
        (.err 400 "rating must be an integer between 1 and 5", db)
      else
        let notes := pyStrip (strOrEmpty (data "notes"))
        let name := pyStrip (strOrEmpty (data "name"))
        let rating_sum := intOrZero (book_data "rating_sum") + rating
        let rating_count := intOrZero (book_data "rating_count") + 1
        let rating_avg : Value :=
          if rating_count ≠ 0 then .rat ((rating_sum : ℚ) / (rating_count : ℚ))
          else .int 0
        let newBook := mergeDoc book_data (rateBookPatch rating_sum rating_count rating_avg ts)
        let entry := record_rating id rating notes name ts
        let body : Doc := fun k =>
          if k = "ok" then some (.int 1)
          else if k = "rating_avg" then some rating_avg
          else if k = "rating_count" then some (.int rating_count)
          else none
        (.ok 201 body,
         { db with books := colSet db.books id newBook,
                   ratings := db.ratings ++ [entry] })

/-- The `year` coercion shared by `books_create` and `books_update`:
when the key is present, replace it with `to_int` or fail. -/
def coerceYear (data : Doc) : Option Doc :=
  match data "year" with
  | none => some data
  | some v =>
    match to_int (some v) none with
    | none => none
    | some n => some (dset data "year" (.int n))

/-- Embedding of `books_create` (`POST /api/books`) from `src/app.py`: required
fields, year coercion, referential-integrity checks, tag sanitization,
rating-field defaults, then the generic `create`. -/
def books_create (db : DB) (data : Doc) (ts : String) : Resp × DB :=
  match require_fields data ["title", "author_id", "publisher_id"] with
  | some msg => (.err 400 msg, db)
  | none =>
    match coerceYear data with
    | none => (.err 400 "year must be an integer", db)
    | some data1 =>
      if !existsDoc db.authors (Value.asId (data1 "author_id")) then
        (.err 400 "author_id does not exist", db)
      else if !existsDoc db.publishers (Value.asId (data1 "publisher_id")) then
        (.err 400 "publisher_id does not exist", db)
      else
        let data2 := dset data1 "tags" (.list (sanitizeTagsValue (data1 "tags")))
        let data3 :=
          dsetdefault (dsetdefault (dsetdefault data2
            "rating_sum" (.int 0)) "rating_count" (.int 0)) "rating_avg" (.int 0)
        let res := create db.books db.nextId data3 ts
        (.ok 201 res.1,
         { db with books := res.2.1, nextId := res.2.2 })

/-- Embedding of `books_update` (`PUT /api/books/<id>`) from `src/app.py`: year
coercion, conditional foreign-key checks, conditional tag
sanitization, then the generic `update_one`. -/
def books_update (db : DB) (id : String) (data : Doc) (ts : String) :
    Resp × DB :=
  match coerceYear data with
  | none => (.err 400 "year must be an integer", db)
  | some data1 =>
    if data1 "author_id" ≠ none ∧
        !existsDoc db.authors (Value.asId (data1 "author_id")) then
      (.err 400 "author_id does not exist", db)
    else if data1 "publisher_id" ≠ none ∧
        !existsDoc db.publishers (Value.asId (data1 "publisher_id")) then
      (.err 400 "publisher_id does not exist", db)
    else
      let data2 :=
        match data1 "tags" with
        | some v => dset data1 "tags" (.list (sanitizeTagsValue (some v)))
        | none => data1
      match update_one db.books id data2 ts with
      | (none, _) => (.err 404 "Not found", db)
      | (some d, col2) => (.ok 200 d, { db with books := col2 })

/-- The book-mutating operations named by the reachability claim. -/
inductive Op where
  | createBook (data : Doc) (ts : String)
  | updateBook (id : String) (data : Doc) (ts : String)
  | rateBook (id : String) (data : Doc) (ts : String)

/-- Apply one operation, keeping only the state. -/
def applyOp (db : DB) : Op → DB
  | .createBook data ts => (books_create db data ts).2
  | .updateBook id data ts => (books_update db id data ts).2
  | .rateBook id data ts => (books_rate db id data ts).2

/-- Run a sequence of book operations from an initial state. -/
def runOps (db : DB) (ops : List Op) : DB :=
  ops.foldl applyOp db

/-- Field lookup on a stored book, for stating concrete outcomes. -/
def bookField (db : DB) (id : String) (k : String) : Option Value :=
  match db.books id with
  | some b => b k
  | none => none

/-- The session state of `src/app.py`: the process-local token cache
(`_admin_tokens`) and the durable `admin_sessions` collection
(modelled by the set of stored token ids). -/
structure Sessions where
  cache : List String
  durable : List String

/-- The `require_admin` check from `src/app.py`: accept a cached token;
otherwise consult the durable collection and lazily re-cache on a hit;
fail on a missing or unknown token.  Returns (authorized?, state after
the lazy re-cache). -/
def require_admin_check (s : Sessions) (tok : Option String) :
    Bool × Sessions :=
  match tok with
  | none => (false, s)
  | some t =>
    if t ∈ s.cache then (true, s)
    else if t ∈ s.durable then (true, { s with cache := t :: s.cache })
    else (false, s)

/-- The successful branch of `login` in `src/app.py`: the freshly
minted token is added to both the cache and the durable collection. -/
def loginStep (s : Sessions) (t : String) : Sessions :=
  { cache := t :: s.cache, durable := t :: s.durable }

/-- Embedding of `logout` (`POST /api/logout`) from `src/app.py`: guarded by
`require_admin`; on success discards the presented token from the
cache and deletes it from the durable collection.  Returns
(succeeded?, new state). -/
def logoutStep (s : Sessions) (tok : Option String) : Bool × Sessions :=
  match require_admin_check s tok with
  | (false, s1) => (false, s1)
  | (true, s1) =>
    match tok with
    | none => (true, s1)
    | some t =>
      (true, { cache := s1.cache.filter (fun x => x ≠ t),
               durable := s1.durable.filter (fun x => x ≠ t) })

/-- Session-affecting events: a login minting token `t`, a logout
presenting a token, and any other protected call presenting a token
(whose only session effect is the lazy re-cache of `require_admin`). -/
inductive SEv where
  | login (t : String)
  | logout (tok : Option String)
  | protected_call (tok : Option String)
deriving DecidableEq

/-- Apply one session event to the session state. -/
def applySEv (s : Sessions) : SEv → Sessions
  | .login t => loginStep s t
  | .logout tok => (logoutStep s tok).2
  | .protected_call tok => (require_admin_check s tok).2

/-- Run a sequence of session events. -/
def runSEvs (s : Sessions) (evs : List SEv) : Sessions :=
  evs.foldl applySEv s

/-! ### Concrete fixtures used by witnesses and counterexamples -/

/-- A store with one author `a1` and one publisher `p1`, no books. -/
def dbT : DB :=
  { authors := colSet emptyCol "a1" (dset emptyDoc "name" (.str "A"))
    publishers := colSet emptyCol "p1" (dset emptyDoc "name" (.str "P"))
    books := emptyCol
    ratings := []
    nextId := 0 }

/-- A minimal valid book-creation payload referencing `a1`/`p1`. -/
def mkBookData : Doc := fun k =>
  if k = "title" then some (.str "B")
  else if k = "author_id" then some (.str "a1")
  else if k = "publisher_id" then some (.str "p1")
  else none

/-- A rating payload `{"rating": r}`. -/
def rateData (r : Int) : Doc := fun k =>
  if k = "rating" then some (.int r) else none

/-- A book-creation payload that also supplies its own rating
aggregate fields. -/
def badData : Doc := fun k =>
  if k = "title" then some (.str "B")
  else if k = "author_id" then some (.str "a1")
  else if k = "publisher_id" then some (.str "p1")
  else if k = "rating_sum" then some (.int 7)
  else if k = "rating_count" then some (.int 0)
  else if k = "rating_avg" then some (.int 7)
  else none

/-- An author-creation payload that supplies its own `createdAt`. -/
def cData : Doc := fun k =>
  if k = "name" then some (.str "A")
  else if k = "createdAt" then some (.str "1999") else none

/-- The store after creating one book from `dbT` and rating it 5, 3, 4. -/
def dbAfter : DB :=
  runOps dbT [.createBook mkBookData "T0",
              .rateBook (freshId 0) (rateData 5) "T1",
              .rateBook (freshId 0) (rateData 3) "T2",
              .rateBook (freshId 0) (rateData 4) "T3"]

/-! ### Helper lemmas -/

theorem parse_limit_bounds (v : Option Value) :
    1 ≤ parse_limit v ∧ parse_limit v ≤ 100 := by
  unfold parse_limit to_int
  cases h : pyIntValue v with
  | none => simp
  | some n =>
    simp only
    split_ifs <;> omega

theorem parse_offset_nonneg (v : Option Value) : 0 ≤ parse_offset v := by
  unfold parse_offset to_int
  cases h : pyIntValue v with
  | none => simp
  | some n => simp

/-! ### C10 -/

/-- C10: pagination-parameter parsing is total and never errors:
`parse_limit` always lands in `[1,100]` (default 10 on unparseable
input), `parse_offset` is always `≥ 0` (default 0 on unparseable
input), for every possible query value including absent ones. -/
theorem c10_parse_params_total (v : Option Value) :
    1 ≤ parse_limit v ∧ parse_limit v ≤ 100 ∧ 0 ≤ parse_offset v ∧
    (pyIntValue v = none → parse_limit v = 10 ∧ parse_offset v = 0) := by
  refine ⟨(parse_limit_bounds v).1, (parse_limit_bounds v).2,
    parse_offset_nonneg v, fun h => ?_⟩
  constructor
  · unfold parse_limit to_int
    simp [h]
  · unfold parse_offset to_int
    simp [h]

/-- C10 witness: a non-numeric query value falls back to the defaults. -/
theorem c10_witness :
    pyIntValue (some (.str "abc")) = none ∧
    parse_limit (some (.str "abc")) = 10 ∧
    parse_offset (some (.str "abc")) = 0 :=
  ⟨by decide, ((c10_parse_params_total (some (.str "abc"))).2.2.2 (by decide)).1,
    ((c10_parse_params_total (some (.str "abc"))).2.2.2 (by decide)).2⟩

/-! ### C1 -/

/-- C1: for every (filtered) collection and raw limit/offset query
values, the list operation clamps the limit to `[1,100]` (default 10)
and the offset to `≥ 0`, returns the slice `[offset, offset+limit)`,
the unpaginated total, the effective limit/offset, and `has_more` true
iff `offset + returned_count < total`; an offset at or past the size
yields an empty page with `has_more = false`. -/
theorem c1_list_pagination {α : Type} (rawl rawo : Option Value) (items : List α) :
    1 ≤ parse_limit rawl ∧ parse_limit rawl ≤ 100 ∧ parse_limit none = 10 ∧
    0 ≤ parse_offset rawo ∧
    (paginate items (parse_limit rawl) (parse_offset rawo)).items =
      (items.drop (parse_offset rawo).toNat).take (parse_limit rawl).toNat ∧
    (paginate items (parse_limit rawl) (parse_offset rawo)).total = items.length ∧
    (paginate items (parse_limit rawl) (parse_offset rawo)).limit = parse_limit rawl ∧
    (paginate items (parse_limit rawl) (parse_offset rawo)).offset = parse_offset rawo ∧
    ((paginate items (parse_limit rawl) (parse_offset rawo)).has_more = true ↔
      parse_offset rawo +
        ((paginate items (parse_limit rawl) (parse_offset rawo)).items.length : Int) <
        items.length) ∧
    ((items.length : Int) ≤ parse_offset rawo →
      (paginate items (parse_limit rawl) (parse_offset rawo)).items = [] ∧
      (paginate items (parse_limit rawl) (parse_offset rawo)).has_more = false) := by
  obtain ⟨hl1, hl2⟩ := parse_limit_bounds rawl
  have ho := parse_offset_nonneg rawo
  set l := parse_limit rawl with hldef
  set o := parse_offset rawo with hodef
  have hlne : ¬ l = 0 := by omega
  have hsize : max 1 (if l = 0 then 1 else l) = l := by
    rw [if_neg hlne]; omega
  have hstart : max 0 o = o := by omega
  have hitems : (paginate items l o).items =
      (items.drop o.toNat).take l.toNat := by
    simp only [paginate, pySlice, hsize, hstart]
    rw [List.take_eq_take]
    simp only [List.length_drop]
    omega
  have hhm : (paginate items l o).has_more =
      decide (min (o + l) (items.length : Int) < (items.length : Int)) := by
    simp only [paginate, hsize, hstart]
  refine ⟨hl1, hl2, by decide, ho, hitems, rfl, ?_, rfl, ?_, fun hbig => ?_⟩
  · simp only [paginate, hsize]
  · rw [hhm, hitems]
    simp only [decide_eq_true_eq, List.length_take, List.length_drop]
    omega
  · constructor
    · rw [hitems]
      have h0 : items.drop o.toNat = [] := List.drop_eq_nil_of_le (by omega)
      rw [h0, List.take_nil]
    · rw [hhm]
      simp only [decide_eq_false_iff_not]
      omega

/-- C1 witness: a concrete page: limit `"2"`, offset `"1"` over a
3-element collection returns the middle slice with `has_more = false`. -/
theorem c1_witness :
    (paginate ([10, 20, 30] : List Int) (parse_limit (some (.str "2")))
        (parse_offset (some (.str "1")))).items =
      (([10, 20, 30] : List Int).drop (parse_offset (some (.str "1"))).toNat).take
        (parse_limit (some (.str "2"))).toNat ∧
    ((paginate ([10, 20, 30] : List Int) (parse_limit (some (.str "2")))
        (parse_offset (some (.str "1")))).has_more = true ↔
      parse_offset (some (.str "1")) +
        ((paginate ([10, 20, 30] : List Int) (parse_limit (some (.str "2")))
          (parse_offset (some (.str "1")))).items.length : Int) <
        ([10, 20, 30] : List Int).length) :=
  ⟨(c1_list_pagination (some (.str "2")) (some (.str "1")) [10, 20, 30]).2.2.2.2.1,
   (c1_list_pagination (some (.str "2")) (some (.str "1")) [10, 20, 30]).2.2.2.2.2.2.2.2.1⟩

/-! ### C5 -/

/-- Every nonempty `dropWhile` result starts with an element failing
the predicate. -/
theorem dropWhile_head_false (p : α → Bool) (l : List α) (c : α) (t : List α)
    (h : l.dropWhile p = c :: t) : p c = false := by
  induction l with
  | nil => simp at h
  | cons a rest ih =>
    rw [List.dropWhile_cons] at h
    by_cases hp : p a
    · rw [if_pos hp] at h; exact ih h
    · rw [if_neg hp] at h
      cases h
      simp only [Bool.not_eq_true] at hp
      exact hp

/-- The function `dropWhile` is the identity on a list whose head already fails the
predicate. -/
theorem dropWhile_eq_self_of_head_false (p : α → Bool) (l : List α)
    (h : ∀ c t, l = c :: t → p c = false) : l.dropWhile p = l := by
  cases l with
  | nil => rfl
  | cons a rest =>
    rw [List.dropWhile_cons, if_neg]
    simp [h a rest rfl]

/-- The function `dropWhile` is idempotent. -/
theorem dropWhile_dropWhile (p : α → Bool) (l : List α) :
    (l.dropWhile p).dropWhile p = l.dropWhile p := by
  apply dropWhile_eq_self_of_head_false
  intro c t h
  exact dropWhile_head_false p l c t h

/-- The function `stripChars` produces a prefix of `dropWhile isWhitespace`. -/
theorem stripChars_prefix (cs : List Char) :
    stripChars cs <+: cs.dropWhile Char.isWhitespace := by
  have h := List.dropWhile_suffix
    (l := (cs.dropWhile Char.isWhitespace).reverse) Char.isWhitespace
  have h2 := List.reverse_prefix.mpr h
  rw [List.reverse_reverse] at h2
  exact h2

/-- The head of `stripChars` fails `isWhitespace`. -/
theorem stripChars_head_false (cs : List Char) (c : Char) (t : List Char)
    (h : stripChars cs = c :: t) : c.isWhitespace = false := by
  obtain ⟨u, hu⟩ := stripChars_prefix cs
  rw [h] at hu
  exact dropWhile_head_false _ cs c (t ++ u) hu.symm

/-- The function `stripChars` is idempotent: stripping a stripped string changes
nothing. -/
theorem stripChars_idem (cs : List Char) :
    stripChars (stripChars cs) = stripChars cs := by
  conv_lhs => rw [stripChars]
  rw [dropWhile_eq_self_of_head_false _ _ (stripChars_head_false cs)]
  unfold stripChars
  rw [List.reverse_reverse, dropWhile_dropWhile]

/-- The function `pyStrip` is idempotent. -/
theorem pyStrip_idem (s : String) : pyStrip (pyStrip s) = pyStrip s := by
  unfold pyStrip
  rw [show (String.mk (stripChars s.data)).data = stripChars s.data from rfl,
    stripChars_idem]

/-- First-occurrence deduplication with an explicit seen-set: the
reference rendering of the spec sentence "removes duplicates
preserving first occurrence order". -/
def dedupFirstAux : List String → List String → List String
  | [], _ => []
  | t :: rest, seen =>
    if t ∈ seen then dedupFirstAux rest seen
    else t :: dedupFirstAux rest (t :: seen)

/-- Modelled from the wording of the spec (§4.5): keep the first occurrence of
each element, in order.  Used only as the comparison point for the
deduplication behaviour of the sanitizer. -/
def dedupFirst (l : List String) : List String :=
  dedupFirstAux l []

theorem dedupFirstAux_congr (l : List String) (s1 s2 : List String)
    (h : ∀ x, x ∈ s1 ↔ x ∈ s2) : dedupFirstAux l s1 = dedupFirstAux l s2 := by
  induction l generalizing s1 s2 with
  | nil => rfl
  | cons t rest ih =>
    unfold dedupFirstAux
    by_cases ht : t ∈ s1
    · rw [if_pos ht, if_pos ((h t).mp ht)]
      exact ih s1 s2 h
    · rw [if_neg ht, if_neg (fun hc => ht ((h t).mpr hc))]
      congr 1
      apply ih
      intro x
      simp only [List.mem_cons]
      exact or_congr Iff.rfl (h x)

/-- The sanitizer loop is: map `strip`, filter to nonempty vocabulary
members, then first-occurrence dedup against the accumulator. -/
theorem sanitizeTagsAux_eq (l : List String) (cleaned : List String) :
    sanitizeTagsAux TAG_OPTIONS l cleaned =
      cleaned ++ dedupFirstAux
        ((l.map pyStrip).filter (fun t => decide (t ≠ "" ∧ t ∈ TAG_OPTIONS)))
        cleaned := by
  induction l generalizing cleaned with
  | nil => simp [sanitizeTagsAux, dedupFirstAux]
  | cons tag rest ih =>
    unfold sanitizeTagsAux
    simp only [List.map_cons, List.filter_cons]
    by_cases hp : pyStrip tag ≠ "" ∧ pyStrip tag ∈ TAG_OPTIONS
    · simp only [decide_eq_true_eq]
      by_cases hc : pyStrip tag ∈ cleaned
      · rw [if_neg (by tauto), if_pos (by tauto)]
        unfold dedupFirstAux
        rw [if_pos hc]
        exact ih cleaned
      · rw [if_pos (by tauto), if_pos (by tauto)]
        unfold dedupFirstAux
        rw [if_neg hc]
        rw [ih (cleaned ++ [pyStrip tag])]
        rw [List.append_assoc, List.singleton_append]
        congr 1
        congr 1
        apply dedupFirstAux_congr
        intro x
        simp [List.mem_append, List.mem_cons, or_comm]
    · rw [if_neg (by tauto), if_neg (by simpa using hp)]
      exact ih cleaned

theorem mem_dedupFirstAux (l seen : List String) (x : String)
    (h : x ∈ dedupFirstAux l seen) : x ∈ l := by
  induction l generalizing seen with
  | nil => simp [dedupFirstAux] at h
  | cons t rest ih =>
    unfold dedupFirstAux at h
    by_cases ht : t ∈ seen
    · rw [if_pos ht] at h
      exact List.mem_cons_of_mem t (ih seen h)
    · rw [if_neg ht] at h
      rcases List.mem_cons.mp h with h1 | h2
      · exact h1 ▸ List.mem_cons_self x rest
      · exact List.mem_cons_of_mem t (ih (t :: seen) h2)

theorem dedupFirstAux_nodup (l : List String) : ∀ seen : List String,
    (dedupFirstAux l seen).Nodup ∧ ∀ x ∈ dedupFirstAux l seen, x ∉ seen := by
  induction l with
  | nil => intro seen; simp [dedupFirstAux]
  | cons t rest ih =>
    intro seen
    unfold dedupFirstAux
    by_cases ht : t ∈ seen
    · rw [if_pos ht]
      exact ih seen
    · rw [if_neg ht]
      obtain ⟨hnd, hns⟩ := ih (t :: seen)
      constructor
      · refine List.nodup_cons.mpr ⟨fun hc => ?_, hnd⟩
        exact hns t hc (List.mem_cons_self t seen)
      · intro x hx hxs
        rcases List.mem_cons.mp hx with h1 | h2
        · exact ht (h1 ▸ hxs)
        · exact hns x h2 (List.mem_cons_of_mem t hxs)

theorem dedupFirstAux_eq_self (l : List String) : ∀ seen : List String,
    l.Nodup → (∀ x ∈ l, x ∉ seen) → dedupFirstAux l seen = l := by
  induction l with
  | nil => intro seen _ _; rfl
  | cons t rest ih =>
    intro seen hnd hs
    unfold dedupFirstAux
    rw [if_neg (hs t (List.mem_cons_self t rest))]
    congr 1
    apply ih (t :: seen) (List.nodup_cons.mp hnd).2
    intro x hx
    simp only [List.mem_cons, not_or]
    exact ⟨fun he => (List.nodup_cons.mp hnd).1 (he ▸ hx),
      hs x (List.mem_cons_of_mem t hx)⟩

/-- C5: `sanitize_tags` equals "strip each tag, keep nonempty
vocabulary members, deduplicate keeping the first occurrence in
order"; it is idempotent; and the concrete example
`["Fantasy","fantasy","Fantasy","Bogus"]` (the vocabulary contains
`"Fantasy"`) collapses to `["Fantasy"]`. -/
theorem c5_sanitize_tags (v : List String) :
    sanitize_tags v =
      dedupFirst ((v.map pyStrip).filter
        (fun t => decide (t ≠ "" ∧ t ∈ TAG_OPTIONS))) ∧
    sanitize_tags (sanitize_tags v) = sanitize_tags v ∧
    "Fantasy" ∈ TAG_OPTIONS ∧
    sanitize_tags ["Fantasy", "fantasy", "Fantasy", "Bogus"] = ["Fantasy"] := by
  have hchar : ∀ w : List String, sanitize_tags w =
      dedupFirst ((w.map pyStrip).filter
        (fun t => decide (t ≠ "" ∧ t ∈ TAG_OPTIONS))) := by
    intro w
    unfold sanitize_tags dedupFirst
    rw [sanitizeTagsAux_eq]
    simp
  refine ⟨hchar v, ?_, by decide, by decide⟩
  set pred := fun t => decide (t ≠ "" ∧ t ∈ TAG_OPTIONS) with hpred
  set m := (v.map pyStrip).filter pred with hm
  set o := sanitize_tags v with ho
  have homem : ∀ t ∈ o, pred t = true ∧ pyStrip t = t := by
    intro t ht
    rw [ho, hchar v, ← hm] at ht
    have htm : t ∈ m := mem_dedupFirstAux m [] t ht
    rw [hm] at htm
    obtain ⟨htmap, htpred⟩ := List.mem_filter.mp htm
    obtain ⟨orig, _, horig⟩ := List.mem_map.mp htmap
    exact ⟨htpred, horig ▸ pyStrip_idem orig⟩
  have hond : o.Nodup := by
    rw [ho, hchar v, ← hm]
    exact (dedupFirstAux_nodup m []).1
  rw [hchar o]
  have hmap : o.map pyStrip = o := by
    conv_rhs => rw [show o = o.map id from (List.map_id o).symm]
    exact List.map_congr_left (fun t ht => (homem t ht).2)
  rw [hmap]
  have hfil : o.filter pred = o :=
    List.filter_eq_self.mpr (fun t ht => (homem t ht).1)
  rw [hfil]
  exact dedupFirstAux_eq_self o [] hond (by simp)

/-! ### C7 -/

/-- C7: `update_one` on an existing document merges the patch, leaves
every field not named in the patch unchanged, adds/refreshes only
`updatedAt` among the fields it introduces, and leaves other documents
alone; on a nonexistent id it returns `none` and leaves the collection
exactly as it was. -/
theorem c7_update_frame (col : Col) (id : String) (data : Doc) (ts : String) :
    (∀ old, col id = some old →
      ∃ merged,
        update_one col id data ts =
          (some (doc_to_dict merged id), colSet col id merged) ∧
        (∀ k, data k = none → k ≠ "updatedAt" → merged k = old k) ∧
        merged "updatedAt" = some (.str ts) ∧
        (∀ k v, data k = some v → k ≠ "updatedAt" → merged k = some v) ∧
        (∀ j, j ≠ id → colSet col id merged j = col j)) ∧
    (col id = none → update_one col id data ts = (none, col)) := by
  constructor
  · intro old hold
    refine ⟨mergeDoc old (dset data "updatedAt" (.str ts)), ?_, ?_, ?_, ?_, ?_⟩
    · unfold update_one
      rw [hold]
    · intro k hk hk2
      simp [mergeDoc, dset, hk2, hk]
    · simp [mergeDoc, dset]
    · intro k v hkv hk2
      simp [mergeDoc, dset, hk2, hkv]
    · intro j hj
      simp [colSet, hj]
  · intro hnone
    unfold update_one
    rw [hnone]

/-- A stored author-like document used by the C7 witness. -/
def old0 : Doc := fun k =>
  if k = "name" then some (.str "A")
  else if k = "city" then some (.str "C") else none

/-- A partial patch touching only `city`. -/
def patch0 : Doc := fun k => if k = "city" then some (.str "D") else none

/-- A one-document collection holding `old0` under id `x`. -/
def col0 : Col := colSet emptyCol "x" old0

/-- C7 witness: patching `city` on a concrete document keeps `name`,
rewrites `city`, and refreshes `updatedAt`. -/
theorem c7_witness :
    ∃ m, update_one col0 "x" patch0 "T2" =
        (some (doc_to_dict m "x"), colSet col0 "x" m) ∧
      m "name" = some (.str "A") ∧ m "city" = some (.str "D") ∧
      m "updatedAt" = some (.str "T2") := by
  obtain ⟨h1, _⟩ := c7_update_frame col0 "x" patch0 "T2"
  obtain ⟨m, hm, hframe, hup, hpatch, _⟩ := h1 old0 rfl
  refine ⟨m, hm, ?_, ?_, hup⟩
  · have h2 := hframe "name" rfl (by decide)
    rw [h2]
    rfl
  · exact hpatch "city" (.str "D") rfl (by decide)

/-! ### C8 -/

theorem freshId_ne_empty (n : Nat) : freshId n ≠ "" := by
  intro h
  have hlen := congrArg String.length h
  rw [freshId, String.length_append] at hlen
  have h3 : ("doc" : String).length = 3 := rfl
  have h0 : ("" : String).length = 0 := rfl
  rw [h3, h0] at hlen
  omega

/-- C8 counterexample: the claim "both createdAt and updatedAt set to
the creation time (in particular createdAt = updatedAt)" fails when
the creation payload itself supplies `createdAt`: the source keeps the
client value via `setdefault` while still overwriting `updatedAt`. -/
theorem c8_counterexample :
    (create emptyCol 0 cData "T").1 "createdAt" = some (.str "1999") ∧
    (create emptyCol 0 cData "T").1 "updatedAt" = some (.str "T") ∧
    Value.str "1999" ≠ Value.str "T" := by
  refine ⟨rfl, rfl, by decide⟩

/-- C8 as amended: every creation yields a document carrying the
store-assigned nonempty id and `updatedAt` equal to the creation
time, with every payload field intact, and a subsequent get by the
new id returns exactly the creation result; `createdAt` equals the
creation time (hence `createdAt = updatedAt`) whenever the payload
does not supply `createdAt` itself. -/
theorem c8_create_roundtrip (col : Col) (n : Nat) (data : Doc) (ts : String) :
    (create col n data ts).1 "id" = some (.str (freshId n)) ∧
    freshId n ≠ "" ∧
    (create col n data ts).1 "updatedAt" = some (.str ts) ∧
    (data "createdAt" = none →
      (create col n data ts).1 "createdAt" = some (.str ts)) ∧
    (∀ k v, data k = some v → k ≠ "updatedAt" → k ≠ "id" →
      (create col n data ts).1 k = some v) ∧
    get_one (create col n data ts).2.1 (freshId n) = some (create col n data ts).1 := by
  refine ⟨rfl, freshId_ne_empty n, ?_, ?_, ?_, ?_⟩
  · simp [create, doc_to_dict, dset, dsetdefault]
  · intro h
    simp [create, doc_to_dict, dset, dsetdefault, h]
  · intro k v hkv hk1 hk2
    simp only [create, doc_to_dict, dset, dsetdefault]
    rw [if_neg hk2, if_neg hk1]
    by_cases hc : k = "createdAt"
    · subst hc
      rw [hkv]
      simp
    · rw [if_neg hc, hkv]
  · simp [create, get_one, colSet]

/-- C8 witness: a concrete author creation (`{name: "A"}`) round
trip. -/
theorem c8_witness :
    (create emptyCol 0 (dset emptyDoc "name" (.str "A")) "T").1 "id" =
      some (.str (freshId 0)) ∧
    (create emptyCol 0 (dset emptyDoc "name" (.str "A")) "T").1 "createdAt" =
      some (.str "T") ∧
    (create emptyCol 0 (dset emptyDoc "name" (.str "A")) "T").1 "updatedAt" =
      some (.str "T") ∧
    get_one (create emptyCol 0 (dset emptyDoc "name" (.str "A")) "T").2.1 (freshId 0) =
      some (create emptyCol 0 (dset emptyDoc "name" (.str "A")) "T").1 := by
  obtain ⟨h1, _, h3, h4, _, h6⟩ :=
    c8_create_roundtrip emptyCol 0 (dset emptyDoc "name" (.str "A")) "T"
  exact ⟨h1, h4 rfl, h3, h6⟩

/-! ### C9 -/

/-- C9 counterexample: a rate call on a nonexistent book with an
out-of-range rating (0) returns Not-Found 404, not the Validation 400
the claim predicts, because the source checks book existence
before validating the rating. -/
theorem c9_counterexample :
    (books_rate dbT "nope" (rateData 0) "T").1.status = 404 ∧
    (books_rate dbT "nope" (rateData 0) "T").1.errMsg = "Book not found" ∧
    (404 : Nat) ≠ 400 := by
  refine ⟨rfl, rfl, by decide⟩

/-- C9 as amended: `books_rate` checks book existence first
(Not-Found 404, store untouched), and only for an existing book
validates the rating (Validation 400 on a non-integer or out-of-range
rating, store untouched); hence a nonexistent book id always yields
Not-Found, whatever the rating. -/
theorem c9_rate_error_order (db : DB) (id : String) (data : Doc) (ts : String) :
    (db.books id = none →
      books_rate db id data ts = (.err 404 "Book not found", db)) ∧
    (∀ b, db.books id = some b →
      (to_int (data "rating") none = none →
        books_rate db id data ts =
          (.err 400 "rating must be an integer between 1 and 5", db)) ∧
      (∀ r, to_int (data "rating") none = some r → (r < 1 ∨ r > 5) →
        books_rate db id data ts =
          (.err 400 "rating must be an integer between 1 and 5", db))) := by
  constructor
  · intro h
    unfold books_rate
    rw [h]
  · intro b hb
    constructor
    · intro hr
      unfold books_rate
      rw [hb, hr]
    · intro r hr hrange
      unfold books_rate
      rw [hb, hr]
      simp only [if_pos hrange]

/-- C9 witness: the amended order on concrete inputs: missing book →
404 even with rating 0; existing book with rating 0 → 400. -/
theorem c9_witness :
    books_rate dbT "nope" (rateData 0) "T" = (.err 404 "Book not found", dbT) ∧
    books_rate dbAfter (freshId 0) (rateData 0) "T" =
      (.err 400 "rating must be an integer between 1 and 5", dbAfter) := by
  constructor
  · exact (c9_rate_error_order dbT "nope" (rateData 0) "T").1 rfl
  · obtain ⟨b, hb⟩ : ∃ b, dbAfter.books (freshId 0) = some b := ⟨_, rfl⟩
    exact ((c9_rate_error_order dbAfter (freshId 0) (rateData 0) "T").2 b hb).2
      0 rfl (by decide)

/-! ### C2 -/

theorem books_rate_success (db : DB) (id : String) (b : Doc) (data : Doc)
    (r : Int) (ts : String)
    (hb : db.books id = some b) (hto : to_int (data "rating") none = some r)
    (h1 : 1 ≤ r) (h5 : r ≤ 5) :
    books_rate db id data ts =
      (let s := intOrZero (b "rating_sum") + r
       let c := intOrZero (b "rating_count") + 1
       let avg : Value := if c ≠ 0 then .rat ((s : ℚ) / (c : ℚ)) else .int 0
       (.ok 201 (fun k =>
          if k = "ok" then some (.int 1)
          else if k = "rating_avg" then some avg
          else if k = "rating_count" then some (.int c)
          else none),
        { db with
            books := colSet db.books id (mergeDoc b (rateBookPatch s c avg ts)),
            ratings := db.ratings ++
              [record_rating id r (pyStrip (strOrEmpty (data "notes")))
                (pyStrip (strOrEmpty (data "name"))) ts] })) := by
  unfold books_rate
  rw [hb, hto]
  dsimp only
  rw [if_neg (show ¬(r < 1 ∨ r > 5) by omega)]

/-- The store after creating the book (step 0 of the 5,3,4 scenario). -/
def db1 : DB := (books_create dbT mkBookData "T0").2

/-- After rating 5. -/
def db2 : DB := (books_rate db1 (freshId 0) (rateData 5) "T1").2

/-- After rating 5 then 3. -/
def db3 : DB := (books_rate db2 (freshId 0) (rateData 3) "T2").2

/-- The book document after ratings 5 and 3. -/
def B2 : Doc := (db3.books (freshId 0)).getD emptyDoc

theorem dbAfter_rating_avg :
    bookField dbAfter (freshId 0) "rating_avg" = some (.rat 4) := by
  have hB2 : db3.books (freshId 0) = some B2 := rfl
  have hAfter : dbAfter = (books_rate db3 (freshId 0) (rateData 4) "T3").2 := rfl
  have hkey := books_rate_success db3 (freshId 0) B2 (rateData 4) 4 "T3" hB2 rfl
    (by omega) (by omega)
  rw [hAfter, hkey]
  dsimp only
  have hsum : intOrZero (B2 "rating_sum") = 8 := by decide
  have hcnt : intOrZero (B2 "rating_count") = 2 := by decide
  rw [hsum, hcnt]
  rw [if_pos (show ¬((2 : Int) + 1 = 0) by omega)]
  simp only [bookField, colSet, mergeDoc, rateBookPatch, if_pos rfl]
  norm_num
  decide

/-- C2: rating an existing book with a valid rating `r ∈ [1,5]` writes
back `rating_sum + r`, `rating_count + 1`, their quotient as the new
average, and a refreshed `updatedAt`, leaves every other book field
and the other collections untouched, and appends exactly one
rating-log entry carrying the same book id, rating, trimmed notes and
name; in particular rating a freshly created book 5, 3, 4 in sequence
yields sum 12, count 3, average 4, and three log entries. -/
theorem c2_rate_aggregation (db : DB) (id : String) (b : Doc) (data : Doc)
    (r s c : Int) (ts : String)
    (hb : db.books id = some b)
    (hr : data "rating" = some (.int r)) (h1 : 1 ≤ r) (h5 : r ≤ 5)
    (hs : intOrZero (b "rating_sum") = s)
    (hc : intOrZero (b "rating_count") = c) (hc0 : 0 ≤ c) :
    (books_rate db id data ts).1.status = 201 ∧
    bookField (books_rate db id data ts).2 id "rating_sum" = some (.int (s + r)) ∧
    bookField (books_rate db id data ts).2 id "rating_count" = some (.int (c + 1)) ∧
    bookField (books_rate db id data ts).2 id "rating_avg" =
      some (.rat (((s + r : Int) : ℚ) / ((c + 1 : Int) : ℚ))) ∧
    bookField (books_rate db id data ts).2 id "updatedAt" = some (.str ts) ∧
    (∀ k, k ≠ "rating_sum" → k ≠ "rating_count" → k ≠ "rating_avg" →
      k ≠ "updatedAt" → bookField (books_rate db id data ts).2 id k = b k) ∧
    (∀ j, j ≠ id → (books_rate db id data ts).2.books j = db.books j) ∧
    (books_rate db id data ts).2.authors = db.authors ∧
    (books_rate db id data ts).2.publishers = db.publishers ∧
    (books_rate db id data ts).2.ratings = db.ratings ++
      [record_rating id r (pyStrip (strOrEmpty (data "notes")))
        (pyStrip (strOrEmpty (data "name"))) ts] ∧
    (record_rating id r (pyStrip (strOrEmpty (data "notes")))
      (pyStrip (strOrEmpty (data "name"))) ts) "book_id" = some (.str id) ∧
    (record_rating id r (pyStrip (strOrEmpty (data "notes")))
      (pyStrip (strOrEmpty (data "name"))) ts) "rating" = some (.int r) ∧
    (record_rating id r (pyStrip (strOrEmpty (data "notes")))
      (pyStrip (strOrEmpty (data "name"))) ts) "notes" =
      some (.str (pyStrip (strOrEmpty (data "notes")))) ∧
    (record_rating id r (pyStrip (strOrEmpty (data "notes")))
      (pyStrip (strOrEmpty (data "name"))) ts) "name" =
      some (.str (pyStrip (strOrEmpty (data "name")))) ∧
    bookField dbAfter (freshId 0) "rating_sum" = some (.int 12) ∧
    bookField dbAfter (freshId 0) "rating_count" = some (.int 3) ∧
    bookField dbAfter (freshId 0) "rating_avg" = some (.rat 4) ∧
    dbAfter.ratings.length = 3 := by
  have hto : to_int (data "rating") none = some r := by
    rw [hr]; rfl
  have hkey := books_rate_success db id b data r ts hb hto h1 h5
  rw [hkey]
  dsimp only
  rw [hs, hc]
  rw [if_pos (show ¬(c + 1 = 0) by omega)]
  refine ⟨rfl, ?_, ?_, ?_, ?_, ?_, ?_, rfl, rfl, rfl, rfl, rfl, ?_, ?_,
    by decide, by decide, dbAfter_rating_avg, by decide⟩
  · simp [bookField, colSet, mergeDoc, rateBookPatch]
  · simp [bookField, colSet, mergeDoc, rateBookPatch]
  · simp [bookField, colSet, mergeDoc, rateBookPatch]
  · simp [bookField, colSet, mergeDoc, rateBookPatch]
  · intro k hk1 hk2 hk3 hk4
    simp [bookField, colSet, mergeDoc, rateBookPatch, hk1, hk2, hk3, hk4]
  · intro j hj
    simp [colSet, hj]
  · simp [record_rating, pyStrip_idem]
  · simp [record_rating, pyStrip_idem]

/-- The freshly created book document of the concrete scenario. -/
def B0 : Doc := (db1.books (freshId 0)).getD emptyDoc

/-- C2 witness: rating the freshly created book with 5 gives status
201, sum 5 and count 1. -/
theorem c2_witness :
    (books_rate db1 (freshId 0) (rateData 5) "T1").1.status = 201 ∧
    bookField (books_rate db1 (freshId 0) (rateData 5) "T1").2 (freshId 0)
      "rating_sum" = some (.int (0 + 5)) ∧
    bookField (books_rate db1 (freshId 0) (rateData 5) "T1").2 (freshId 0)
      "rating_count" = some (.int (0 + 1)) := by
  have hB0 : db1.books (freshId 0) = some B0 := rfl
  obtain ⟨h1, h2, h3, _⟩ := c2_rate_aggregation db1 (freshId 0) B0 (rateData 5)
    5 0 0 "T1" hB0 rfl (by decide) (by decide) (by decide) (by decide) (by decide)
  exact ⟨h1, h2, h3⟩

/-! ### C4 -/

theorem coerceYear_preserves (data data1 : Doc) (k : String)
    (h : coerceYear data = some data1) (hk : k ≠ "year") : data1 k = data k := by
  unfold coerceYear at h
  cases hy : data "year" with
  | none =>
    rw [hy] at h
    cases h
    rfl
  | some v =>
    rw [hy] at h
    dsimp only at h
    cases hti : to_int (some v) none with
    | none => rw [hti] at h; cases h
    | some n =>
      rw [hti] at h
      dsimp only at h
      cases h
      simp [dset, hk]

/-- C4 counterexample: a creation request with valid foreign keys that
also supplies `rating_sum = 7` succeeds (201) and the stored book keeps
`rating_sum = 7`, not the claimed 0, because the source only
`setdefault`s the rating fields. -/
theorem c4_counterexample :
    (books_create dbT badData "T0").1.status = 201 ∧
    bookField (books_create dbT badData "T0").2 (freshId 0) "rating_sum" =
      some (.int 7) ∧
    Value.int 7 ≠ Value.int 0 := by
  refine ⟨by decide, by decide, by decide⟩

/-- C4 as amended: a creation request whose `author_id` does not
resolve is always rejected with status 400 and leaves the store
untouched (with the message naming `author_id` whenever the request
passed required-field and year validation); when the required fields
are present, `year` (if any) coerces, both foreign keys resolve, and
the request supplies none of the rating fields itself, creation
succeeds with 201 and the stored book starts at
`rating_sum = rating_count = rating_avg = 0`. -/
theorem c4_create_integrity (db : DB) (data : Doc) (ts : String) :
    (existsDoc db.authors (Value.asId (data "author_id")) = false →
      (books_create db data ts).1.status = 400 ∧
      (books_create db data ts).2 = db) ∧
    (require_fields data ["title", "author_id", "publisher_id"] = none →
      coerceYear data ≠ none →
      existsDoc db.authors (Value.asId (data "author_id")) = false →
      (books_create db data ts).1.errMsg = "author_id does not exist") ∧
    (∀ data1, require_fields data ["title", "author_id", "publisher_id"] = none →
      coerceYear data = some data1 →
      existsDoc db.authors (Value.asId (data "author_id")) = true →
      existsDoc db.publishers (Value.asId (data "publisher_id")) = true →
      data "rating_sum" = none → data "rating_count" = none →
      data "rating_avg" = none →
      (books_create db data ts).1.status = 201 ∧
      bookField (books_create db data ts).2 (freshId db.nextId) "rating_sum" =
        some (.int 0) ∧
      bookField (books_create db data ts).2 (freshId db.nextId) "rating_count" =
        some (.int 0) ∧
      bookField (books_create db data ts).2 (freshId db.nextId) "rating_avg" =
        some (.int 0)) := by
  refine ⟨?_, ?_, ?_⟩
  · intro hauthor
    unfold books_create
    cases hrf : require_fields data ["title", "author_id", "publisher_id"] with
    | some msg => exact ⟨rfl, rfl⟩
    | none =>
      dsimp only
      cases hcy : coerceYear data with
      | none => exact ⟨rfl, rfl⟩
      | some data1 =>
        dsimp only
        have ha : data1 "author_id" = data "author_id" :=
          coerceYear_preserves data data1 "author_id" hcy (by decide)
        rw [ha, hauthor]
        exact ⟨rfl, rfl⟩
  · intro hrf hcy hauthor
    unfold books_create
    rw [hrf]
    cases hcy2 : coerceYear data with
    | none => exact absurd hcy2 hcy
    | some data1 =>
      dsimp only
      have ha : data1 "author_id" = data "author_id" :=
        coerceYear_preserves data data1 "author_id" hcy2 (by decide)
      rw [ha, hauthor]
      rfl
  · intro data1 hrf hcy hauthor hpub hs hc hv
    unfold books_create
    rw [hrf, hcy]
    dsimp only
    have ha : data1 "author_id" = data "author_id" :=
      coerceYear_preserves data data1 "author_id" hcy (by decide)
    have hp : data1 "publisher_id" = data "publisher_id" :=
      coerceYear_preserves data data1 "publisher_id" hcy (by decide)
    rw [ha, hp, hauthor, hpub]
    have h1s : data1 "rating_sum" = none :=
      (coerceYear_preserves data data1 "rating_sum" hcy (by decide)).trans hs
    have h1c : data1 "rating_count" = none :=
      (coerceYear_preserves data data1 "rating_count" hcy (by decide)).trans hc
    have h1v : data1 "rating_avg" = none :=
      (coerceYear_preserves data data1 "rating_avg" hcy (by decide)).trans hv
    refine ⟨rfl, ?_, ?_, ?_⟩
    · simp [bookField, create, colSet, dset, dsetdefault, h1s, h1c, h1v]
    · simp [bookField, create, colSet, dset, dsetdefault, h1s, h1c, h1v]
    · simp [bookField, create, colSet, dset, dsetdefault, h1s, h1c, h1v]

/-- A creation payload whose `author_id` references no author. -/
def badFkData : Doc := fun k =>
  if k = "title" then some (.str "B")
  else if k = "author_id" then some (.str "zz")
  else if k = "publisher_id" then some (.str "p1")
  else none

/-- C4 witness: concrete rejection (unknown author id, 400, store
unchanged) and concrete success (valid ids, 201, zero-initialized
aggregates). -/
theorem c4_witness :
    ((books_create dbT badFkData "T0").1.status = 400 ∧
      (books_create dbT badFkData "T0").2 = dbT) ∧
    ((books_create dbT mkBookData "T0").1.status = 201 ∧
      bookField (books_create dbT mkBookData "T0").2 (freshId 0) "rating_sum" =
        some (.int 0) ∧
      bookField (books_create dbT mkBookData "T0").2 (freshId 0) "rating_count" =
        some (.int 0) ∧
      bookField (books_create dbT mkBookData "T0").2 (freshId 0) "rating_avg" =
        some (.int 0)) := by
  constructor
  · exact (c4_create_integrity dbT badFkData "T0").1 (by decide)
  · exact (c4_create_integrity dbT mkBookData "T0").2.2 mkBookData (by decide)
      rfl (by decide) (by decide) rfl rfl rfl

/-! ### C6 -/

/-- The lazy re-cache of `require_admin` never touches the durable
collection and only moves already-known tokens into the cache. -/
theorem rac_state (s : Sessions) (tok : Option String) :
    (require_admin_check s tok).2.durable = s.durable ∧
    ∀ x, x ∈ (require_admin_check s tok).2.cache → x ∈ s.cache ∨ x ∈ s.durable := by
  unfold require_admin_check
  cases tok with
  | none => exact ⟨rfl, fun x hx => Or.inl hx⟩
  | some u =>
    dsimp only
    by_cases h1 : u ∈ s.cache
    · rw [if_pos h1]
      exact ⟨rfl, fun x hx => Or.inl hx⟩
    · rw [if_neg h1]
      by_cases h2 : u ∈ s.durable
      · rw [if_pos h2]
        refine ⟨rfl, fun x hx => ?_⟩
        rcases List.mem_cons.mp hx with h | h
        · exact Or.inr (h ▸ h2)
        · exact Or.inl h
      · rw [if_neg h2]
        exact ⟨rfl, fun x hx => Or.inl hx⟩

/-- A token absent from both stores stays absent through a logout of
any token. -/
theorem logoutStep_absent (s : Sessions) (t : String) (tok : Option String)
    (hc : t ∉ s.cache) (hd : t ∉ s.durable) :
    t ∉ (logoutStep s tok).2.cache ∧ t ∉ (logoutStep s tok).2.durable := by
  obtain ⟨hdur, hsub⟩ := rac_state s tok
  have habs : t ∉ (require_admin_check s tok).2.cache ∧
      t ∉ (require_admin_check s tok).2.durable := by
    refine ⟨fun hx => ?_, fun hx => hd (hdur ▸ hx)⟩
    rcases hsub t hx with h | h
    · exact hc h
    · exact hd h
  unfold logoutStep
  cases hr : require_admin_check s tok with
  | mk ok s1 =>
    rw [hr] at habs
    cases ok with
    | false => exact habs
    | true =>
      cases tok with
      | none => exact habs
      | some u =>
        dsimp only
        constructor
        · intro hmem
          exact habs.1 (List.mem_filter.mp hmem).1
        · intro hmem
          exact habs.2 (List.mem_filter.mp hmem).1

/-- A token absent from both stores stays absent under any event other
than a login minting that very token. -/
theorem applySEv_preserves_absent (s : Sessions) (t : String) (ev : SEv)
    (hev : ev ≠ SEv.login t)
    (hc : t ∉ s.cache) (hd : t ∉ s.durable) :
    t ∉ (applySEv s ev).cache ∧ t ∉ (applySEv s ev).durable := by
  cases ev with
  | login u =>
    have hu : u ≠ t := fun h => hev (h ▸ rfl)
    simp only [applySEv, loginStep, List.mem_cons, not_or]
    exact ⟨⟨fun h => hu h.symm, hc⟩, ⟨fun h => hu h.symm, hd⟩⟩
  | logout tok => exact logoutStep_absent s t tok hc hd
  | protected_call tok =>
    obtain ⟨hdur, hsub⟩ := rac_state s tok
    refine ⟨fun hx => ?_, fun hx => hd (hdur ▸ hx)⟩
    rcases hsub t hx with h | h
    · exact hc h
    · exact hd h

/-- Absence is preserved along any event sequence free of logins of
that token. -/
theorem runSEvs_preserves_absent (evs : List SEv) (s : Sessions) (t : String)
    (hevs : ∀ ev ∈ evs, ev ≠ SEv.login t)
    (hc : t ∉ s.cache) (hd : t ∉ s.durable) :
    t ∉ (runSEvs s evs).cache ∧ t ∉ (runSEvs s evs).durable := by
  induction evs generalizing s with
  | nil => exact ⟨hc, hd⟩
  | cons ev rest ih =>
    obtain ⟨hc2, hd2⟩ := applySEv_preserves_absent s t ev
      (hevs ev (List.mem_cons_self ev rest)) hc hd
    exact ih (applySEv s ev) (fun e he => hevs e (List.mem_cons_of_mem ev he)) hc2 hd2

/-- After logout of `t` (whether or not `t` was valid), `t` is in
neither the cache nor the durable collection. -/
theorem logout_removes (s : Sessions) (t : String) :
    t ∉ (logoutStep s (some t)).2.cache ∧ t ∉ (logoutStep s (some t)).2.durable := by
  by_cases hval : t ∈ s.cache ∨ t ∈ s.durable
  · unfold logoutStep require_admin_check
    dsimp only
    by_cases h1 : t ∈ s.cache
    · rw [if_pos h1]
      dsimp only
      constructor
      · intro hmem
        have := (List.mem_filter.mp hmem).2
        simp at this
      · intro hmem
        have := (List.mem_filter.mp hmem).2
        simp at this
    · rw [if_neg h1]
      rcases hval with h | h2
      · exact absurd h h1
      · rw [if_pos h2]
        dsimp only
        constructor
        · intro hmem
          have := (List.mem_filter.mp hmem).2
          simp at this
        · intro hmem
          have := (List.mem_filter.mp hmem).2
          simp at this
  · push_neg at hval
    exact logoutStep_absent s t (some t) hval.1 hval.2

/-- C6: a protected call with no token or an unknown token is refused;
with a token freshly minted by login it succeeds; logout removes the
token from both the cache and the durable session collection, and
afterwards every protected call presenting that token is refused, for
any interleaving of further events that does not re-mint the very same
token. -/
theorem c6_session_lifecycle (s : Sessions) (t : String) (evs : List SEv) :
    (require_admin_check s none).1 = false ∧
    (t ∉ s.cache → t ∉ s.durable → (require_admin_check s (some t)).1 = false) ∧
    (require_admin_check (loginStep s t) (some t)).1 = true ∧
    (t ∉ (logoutStep s (some t)).2.cache ∧ t ∉ (logoutStep s (some t)).2.durable) ∧
    ((∀ ev ∈ evs, ev ≠ SEv.login t) →
      (require_admin_check (runSEvs (logoutStep s (some t)).2 evs) (some t)).1 =
        false) := by
  refine ⟨rfl, ?_, ?_, logout_removes s t, ?_⟩
  · intro hc hd
    unfold require_admin_check
    dsimp only
    rw [if_neg hc, if_neg hd]
  · unfold require_admin_check loginStep
    dsimp only
    rw [if_pos (List.mem_cons_self t s.cache)]
  · intro hevs
    obtain ⟨h1, h2⟩ := logout_removes s t
    obtain ⟨hc, hd⟩ := runSEvs_preserves_absent evs (logoutStep s (some t)).2 t hevs h1 h2
    unfold require_admin_check
    dsimp only
    rw [if_neg hc, if_neg hd]

/-- C6 witness: a concrete lifecycle: empty state, login of `"tok"`,
successful check, logout, then a failing check after an unrelated
login. -/
theorem c6_witness :
    (require_admin_check ⟨[], []⟩ none).1 = false ∧
    (require_admin_check ⟨[], []⟩ (some "tok")).1 = false ∧
    (require_admin_check (loginStep ⟨[], []⟩ "tok") (some "tok")).1 = true ∧
    (require_admin_check
      (runSEvs (logoutStep (loginStep ⟨[], []⟩ "tok") (some "tok")).2
        [SEv.login "other", SEv.protected_call (some "tok")])
      (some "tok")).1 = false := by
  obtain ⟨h1, h2, h3, _, h5⟩ :=
    c6_session_lifecycle (loginStep ⟨[], []⟩ "tok") "tok"
      [SEv.login "other", SEv.protected_call (some "tok")]
  refine ⟨(c6_session_lifecycle ⟨[], []⟩ "tok" []).1, ?_,
    (c6_session_lifecycle ⟨[], []⟩ "tok" []).2.2.1, ?_⟩
  · exact (c6_session_lifecycle ⟨[], []⟩ "tok" []).2.1 (by decide) (by decide)
  · exact h5 (by
      intro ev hev
      fin_cases hev <;> decide)

/-! ### C3 -/

/-- The rating-aggregate invariant on one book document:
`rating_sum`/`rating_count` are integers with a nonnegative count,
`rating_avg = rating_sum / rating_count` when the count is positive,
and `rating_avg = 0` when the count is zero. -/
def BookInv (b : Doc) : Prop :=
  ∃ s c : Int,
    b "rating_sum" = some (.int s) ∧
    b "rating_count" = some (.int c) ∧
    0 ≤ c ∧
    (0 < c → b "rating_avg" = some (.rat ((s : ℚ) / (c : ℚ)))) ∧
    (c = 0 → b "rating_avg" = some (.int 0))

/-- The invariant over every book in the store. -/
def DBRatingInv (db : DB) : Prop :=
  ∀ id b, db.books id = some b → BookInv b

/-- An operation whose request payload does not itself supply any of
the three rating-aggregate fields (rate operations are unrestricted). -/
def OpKeepsRatingFields : Op → Prop
  | .createBook data _ =>
      data "rating_sum" = none ∧ data "rating_count" = none ∧
      data "rating_avg" = none
  | .updateBook _ data _ =>
      data "rating_sum" = none ∧ data "rating_count" = none ∧
      data "rating_avg" = none
  | .rateBook _ _ _ => True

theorem books_create_success (db : DB) (data data1 : Doc) (ts : String)
    (hrf : require_fields data ["title", "author_id", "publisher_id"] = none)
    (hcy : coerceYear data = some data1)
    (hA : existsDoc db.authors (Value.asId (data1 "author_id")) = true)
    (hP : existsDoc db.publishers (Value.asId (data1 "publisher_id")) = true) :
    books_create db data ts =
      (let data3 := dsetdefault (dsetdefault (dsetdefault
          (dset data1 "tags" (.list (sanitizeTagsValue (data1 "tags"))))
          "rating_sum" (.int 0)) "rating_count" (.int 0)) "rating_avg" (.int 0)
       let res := create db.books db.nextId data3 ts
       (.ok 201 res.1, { db with books := res.2.1, nextId := res.2.2 })) := by
  unfold books_create
  rw [hrf, hcy]
  dsimp only
  rw [hA, hP]
  rfl

theorem books_create_inv (db : DB) (data : Doc) (ts : String)
    (hinv : DBRatingInv db)
    (hs : data "rating_sum" = none) (hc : data "rating_count" = none)
    (hv : data "rating_avg" = none) :
    DBRatingInv (books_create db data ts).2 := by
  cases hrf : require_fields data ["title", "author_id", "publisher_id"] with
  | some msg =>
    have hkey : books_create db data ts = (.err 400 msg, db) := by
      unfold books_create
      rw [hrf]
    rw [hkey]
    exact hinv
  | none =>
    cases hcy : coerceYear data with
    | none =>
      have hkey : books_create db data ts =
          (.err 400 "year must be an integer", db) := by
        unfold books_create
        rw [hrf, hcy]
      rw [hkey]
      exact hinv
    | some data1 =>
      have h1s : data1 "rating_sum" = none :=
        (coerceYear_preserves data data1 "rating_sum" hcy (by decide)).trans hs
      have h1c : data1 "rating_count" = none :=
        (coerceYear_preserves data data1 "rating_count" hcy (by decide)).trans hc
      have h1v : data1 "rating_avg" = none :=
        (coerceYear_preserves data data1 "rating_avg" hcy (by decide)).trans hv
      cases hA : existsDoc db.authors (Value.asId (data1 "author_id")) with
      | false =>
        have hkey : books_create db data ts =
            (.err 400 "author_id does not exist", db) := by
          unfold books_create
          rw [hrf, hcy]
          dsimp only
          rw [hA]
          rfl
        rw [hkey]
        exact hinv
      | true =>
        cases hP : existsDoc db.publishers (Value.asId (data1 "publisher_id")) with
        | false =>
          have hkey : books_create db data ts =
              (.err 400 "publisher_id does not exist", db) := by
            unfold books_create
            rw [hrf, hcy]
            dsimp only
            rw [hA, hP]
            rfl
          rw [hkey]
          exact hinv
        | true =>
          rw [books_create_success db data data1 ts hrf hcy hA hP]
          dsimp only
          intro id2 b2 h2
          simp only [create, colSet] at h2
          by_cases hid : id2 = freshId db.nextId
          · rw [if_pos hid] at h2
            cases h2
            refine ⟨0, 0, ?_, ?_, le_refl 0,
              fun h0 => absurd h0 (by omega), fun _ => ?_⟩
            · simp [dset, dsetdefault, h1s]
            · simp [dset, dsetdefault, h1c]
            · simp [dset, dsetdefault, h1v]
          · rw [if_neg hid] at h2
            exact hinv id2 b2 h2

theorem books_update_inv (db : DB) (id : String) (data : Doc) (ts : String)
    (hinv : DBRatingInv db)
    (hs : data "rating_sum" = none) (hc : data "rating_count" = none)
    (hv : data "rating_avg" = none) :
    DBRatingInv (books_update db id data ts).2 := by
  unfold books_update
  cases hcy : coerceYear data with
  | none => exact hinv
  | some data1 =>
    dsimp only
    have h1s : data1 "rating_sum" = none :=
      (coerceYear_preserves data data1 "rating_sum" hcy (by decide)).trans hs
    have h1c : data1 "rating_count" = none :=
      (coerceYear_preserves data data1 "rating_count" hcy (by decide)).trans hc
    have h1v : data1 "rating_avg" = none :=
      (coerceYear_preserves data data1 "rating_avg" hcy (by decide)).trans hv
    set data2 := match data1 "tags" with
      | some v => dset data1 "tags" (.list (sanitizeTagsValue (some v)))
      | none => data1 with hd2
    have h2s : data2 "rating_sum" = none := by
      rw [hd2]; cases data1 "tags" <;> simp [dset, h1s]
    have h2c : data2 "rating_count" = none := by
      rw [hd2]; cases data1 "tags" <;> simp [dset, h1c]
    have h2v : data2 "rating_avg" = none := by
      rw [hd2]; cases data1 "tags" <;> simp [dset, h1v]
    split
    · exact hinv
    · split
      · exact hinv
      · cases hbook : db.books id with
        | none =>
          have : update_one db.books id data2 ts = (none, db.books) := by
            unfold update_one; rw [hbook]
          rw [this]
          exact hinv
        | some old =>
          have hup : update_one db.books id data2 ts =
              (some (doc_to_dict (mergeDoc old (dset data2 "updatedAt" (.str ts))) id),
               colSet db.books id (mergeDoc old (dset data2 "updatedAt" (.str ts)))) := by
            unfold update_one; rw [hbook]
          rw [hup]
          dsimp only
          intro id2 b2 h2
          simp only [colSet] at h2
          by_cases hid : id2 = id
          · rw [if_pos hid] at h2
            cases h2
            obtain ⟨s, c, hos, hoc, hc0, hpos, hzero⟩ := hinv id old hbook
            refine ⟨s, c, ?_, ?_, hc0, fun h0 => ?_, fun h0 => ?_⟩
            · simp [mergeDoc, dset, h2s, hos]
            · simp [mergeDoc, dset, h2c, hoc]
            · simp [mergeDoc, dset, h2v]
              exact hpos h0
            · simp [mergeDoc, dset, h2v]
              exact hzero h0
          · rw [if_neg hid] at h2
            exact hinv id2 b2 h2

theorem books_rate_inv (db : DB) (id : String) (data : Doc) (ts : String)
    (hinv : DBRatingInv db) :
    DBRatingInv (books_rate db id data ts).2 := by
  cases hbook : db.books id with
  | none =>
    have h : books_rate db id data ts = (.err 404 "Book not found", db) := by
      unfold books_rate; rw [hbook]
    rw [h]
    exact hinv
  | some b =>
    cases hto : to_int (data "rating") none with
    | none =>
      have h : books_rate db id data ts =
          (.err 400 "rating must be an integer between 1 and 5", db) := by
        unfold books_rate; rw [hbook, hto]
      rw [h]
      exact hinv
    | some r =>
      by_cases hrange : r < 1 ∨ r > 5
      · have h : books_rate db id data ts =
            (.err 400 "rating must be an integer between 1 and 5", db) := by
          unfold books_rate; rw [hbook, hto]; dsimp only; rw [if_pos hrange]
        rw [h]
        exact hinv
      · have hkey := books_rate_success db id b data r ts hbook hto
          (by omega) (by omega)
        rw [hkey]
        dsimp only
        obtain ⟨s, c, hos, hoc, hc0, _, _⟩ := hinv id b hbook
        intro id2 b2 h2
        simp only [colSet] at h2
        by_cases hid : id2 = id
        · rw [if_pos hid] at h2
          cases h2
          rw [hos, hoc]
          have hsz : intOrZero (some (Value.int s)) = s := rfl
          have hcz : intOrZero (some (Value.int c)) = c := rfl
          rw [hsz, hcz]
          rw [if_pos (show ¬(c + 1 = 0) by omega)]
          refine ⟨s + r, c + 1, ?_, ?_, by omega, fun _ => ?_, fun h0 => ?_⟩
          · simp [mergeDoc, rateBookPatch]
          · simp [mergeDoc, rateBookPatch]
          · simp [mergeDoc, rateBookPatch]
          · omega
        · rw [if_neg hid] at h2
          exact hinv id2 b2 h2

/-- C3 as amended: the invariant `rating_avg = rating_sum /
rating_count` (positive count) and `rating_avg = 0` (zero count) holds
for every book reachable by create, update, and rate operations from
an invariant-satisfying store, provided the create and update request
payloads do not themselves supply any of the three rating fields — the
source only `setdefault`s them on create and merges them blindly on
update, so an unrestricted payload can break the invariant (see the
counterexample). -/
theorem c3_rating_invariant (db0 : DB) (ops : List Op)
    (h0 : DBRatingInv db0)
    (hops : ∀ op ∈ ops, OpKeepsRatingFields op) :
    DBRatingInv (runOps db0 ops) := by
  induction ops generalizing db0 with
  | nil => exact h0
  | cons op rest ih =>
    have hstep : DBRatingInv (applyOp db0 op) := by
      have hop := hops op (List.mem_cons_self op rest)
      cases op with
      | createBook data ts =>
        obtain ⟨hs, hc, hv⟩ := hop
        exact books_create_inv db0 data ts h0 hs hc hv
      | updateBook id data ts =>
        obtain ⟨hs, hc, hv⟩ := hop
        exact books_update_inv db0 id data ts h0 hs hc hv
      | rateBook id data ts => exact books_rate_inv db0 id data ts h0
    exact ih (applyOp db0 op) hstep
      (fun e he => hops e (List.mem_cons_of_mem op he))

/-- C3 counterexample: the claim as stated (over all create/update/rate
sequences) is false: one create whose payload supplies
`rating_count = 0` and `rating_avg = 7` is accepted and stores a book
with zero count but nonzero average. -/
theorem c3_counterexample :
    bookField (runOps dbT [Op.createBook badData "T0"]) (freshId 0)
      "rating_count" = some (.int 0) ∧
    bookField (runOps dbT [Op.createBook badData "T0"]) (freshId 0)
      "rating_avg" = some (.int 7) ∧
    Value.int 7 ≠ Value.int 0 := by
  refine ⟨by decide, by decide, by decide⟩

/-- C3 witness: the invariant holds for the book obtained by a create
(with no client rating fields) followed by one rating. -/
theorem c3_witness :
    BookInv (((runOps dbT [Op.createBook mkBookData "T0",
        Op.rateBook (freshId 0) (rateData 5) "T1"]).books (freshId 0)).getD
      emptyDoc) := by
  have h0 : DBRatingInv dbT := by
    intro id b h
    simp [dbT, emptyCol] at h
  have hops : ∀ op ∈ [Op.createBook mkBookData "T0",
      Op.rateBook (freshId 0) (rateData 5) "T1"], OpKeepsRatingFields op := by
    intro op hop
    rcases List.mem_cons.mp hop with h | h2
    · subst h
      exact ⟨rfl, rfl, rfl⟩
    · rcases List.mem_cons.mp h2 with h | h3
      · subst h
        trivial
      · simp at h3
  exact c3_rating_invariant dbT
    [Op.createBook mkBookData "T0", Op.rateBook (freshId 0) (rateData 5) "T1"]
    h0 hops (freshId 0) _ rfl

/-- C5 witness: idempotence instantiated on a concrete mixed tag
list. -/
theorem c5_witness :
    sanitize_tags (sanitize_tags ["Fantasy", " Mystery ", "Bogus"]) =
      sanitize_tags ["Fantasy", " Mystery ", "Bogus"] :=
  (c5_sanitize_tags ["Fantasy", " Mystery ", "Bogus"]).2.1
